import Mathlib

/-!
Shallow embedding of `src/app.py` (AutomatedNetworkIncidentRCA): a keyword
classifier (`predict_incident_type`), a static knowledge base
(`KNOWLEDGE_BASE` with a default record), an f-string prompt template, and
one outbound generation call wrapped in try/except
(`agent_root_cause_analysis`).

Modelling conventions:
* Python strings are Lean `String`; `str.lower()` is modelled character-wise
  with `Char.toLower` (faithful on the ASCII range, which covers every
  keyword the code matches on).
* The Python substring test `a in b` is modelled by list infix on the
  character lists.
* The single network call (`requests.post` + `raise_for_status` +
  `.json()`) is a parameter `transport : String → TransportOutcome`: either
  a raised exception or a parsed JSON response with an HTTP status.
  `raise_for_status` raises exactly on the non-success statuses (>= 400).
* Any exception in the try block (connection error, bad status, missing
  field while indexing `result['candidates'][0]['content']['parts'][0]
  ['text']`) is caught by the bare `except` and turned into the fixed
  fallback string, so the embedded function is total: no fault escapes.
* The returned `RunOutcome` carries the function's return value (`report`,
  a `str` per the source annotation), plus ghost observations that do not
  influence it: the classification shown at step 1 (`predictedType`), how
  many times the transport was invoked (`transportCalls`), and which branch
  produced the outcome (`cause`).
-/

/-- A record of the knowledge base: `app.py` lines 25-41 and 78-82 store
dictionaries with keys `title`, `content` and `actionable_intelligence`. -/
structure KnowledgeRecord where
  title : String
  content : String
  actionable_intelligence : String
  deriving DecidableEq

/-- `KNOWLEDGE_BASE` of `app.py` lines 25-41, as an association list in the
insertion order of the Python dict. -/
def KNOWLEDGE_BASE : List (String × KnowledgeRecord) :=
  [ ("high latency",
     { title := "High Network Latency Troubleshooting Guide",
       content := "High latency can be caused by network congestion, firewall misconfigurations, or a slow server response. Correlate with network traffic logs (e.g., via `ping` or `traceroute`) and server performance metrics. The root cause is often identified by analyzing packet loss and jitter.",
       actionable_intelligence := "Action: Investigate firewall rules for any recent changes and check server CPU/memory usage during peak latency." }),
    ("packet loss",
     { title := "Network Packet Loss Analysis",
       content := "Packet loss indicates dropped packets during transmission. Common causes include faulty cabling, overloaded network devices (routers, switches), or insufficient bandwidth. Check device health, CPU/memory usage, and review interface counters for discard rates.",
       actionable_intelligence := "Action: Ping network hops to isolate the area of packet loss and check device health metrics for signs of an overload." }),
    ("service unreachable",
     { title := "Service Unreachable Troubleshooting",
       content := "A 'service unreachable' error suggests a problem with DNS resolution, an incorrect IP address, or a service not running on the destination server. Start by verifying DNS and checking the service status (`systemctl status [service]`) on the target machine.",
       actionable_intelligence := "Action: Perform a DNS lookup and verify the service is running. If both are correct, check routing tables for misconfigurations." }) ]

/-- The default record passed to `KNOWLEDGE_BASE.get` at `app.py` lines
78-82. -/
def defaultKnowledge : KnowledgeRecord :=
  { title := "General Network Troubleshooting",
    content := "No specific match found in the knowledge base. The analysis will proceed with general best practices.",
    actionable_intelligence := "Action: Start with basic checks like connectivity (`ping`), device status, and recent configuration changes." }

/-- `KNOWLEDGE_BASE.get(incident_type, default)` of `app.py` line 78: the
record stored under the tag, or the default when the tag has no entry. -/
def knowledgeBaseGet (tag : String) : KnowledgeRecord :=
  match KNOWLEDGE_BASE.find? (fun p => p.1 == tag) with
  | some p => p.2
  | none => defaultKnowledge

/-- Python `str.lower()` (line 46), modelled character-wise with
`Char.toLower`; faithful on ASCII, which covers all matched keywords. -/
def pyLower (s : String) : String :=
  String.mk (s.toList.map Char.toLower)

/-- Python substring test `needle in hay` on strings. -/
def strIncludes (needle hay : String) : Bool :=
  decide (needle.toList <:+: hay.toList)

/-- `predict_incident_type` of `app.py` lines 44-54: lowercase the text and
run the if/elif keyword chain. -/
def predict_incident_type (incident_description : String) : String :=
  let lowered := pyLower incident_description
  if strIncludes "latency" lowered || strIncludes "slow" lowered then
    "high latency"
  else if strIncludes "packet" lowered || strIncludes "drop" lowered then
    "packet loss"
  else if strIncludes "unreachable" lowered || strIncludes "down" lowered then
    "service unreachable"
  else
    "unknown"

/-- Parsed JSON values, as returned by `response.json()`. -/
inductive Json where
  | null
  | bool (b : Bool)
  | num (n : Int)
  | str (s : String)
  | arr (items : List Json)
  | obj (fields : List (String × Json))

/-- Python `j[key]` on a parsed JSON value: the field of an object, `none`
when the key is absent or the value is not an object (KeyError/TypeError,
both caught by the bare `except`). -/
def Json.field (j : Json) (key : String) : Option Json :=
  match j with
  | .obj fields => (fields.find? (fun p => p.1 == key)).map (fun p => p.2)
  | _ => none

/-- Python `j[i]` on a parsed JSON value: the element of an array, `none`
when out of range or not an array (the failure is caught by the bare
`except`). -/
def Json.index (j : Json) (i : Nat) : Option Json :=
  match j with
  | .arr items => items[i]?
  | _ => none

/-- The value is a string (the source's return annotation is `-> str`). -/
def Json.asString : Json → Option String
  | .str s => some s
  | _ => none

/-- `result['candidates'][0]['content']['parts'][0]['text']` of `app.py`
line 124; every KeyError/IndexError/TypeError on the way is `none`. -/
def extractGeneratedText (result : Json) : Option String :=
  (result.field "candidates").bind fun cs =>
    (cs.index 0).bind fun c0 =>
      (c0.field "content").bind fun ct =>
        (ct.field "parts").bind fun ps =>
          (ps.index 0).bind fun p0 =>
            (p0.field "text").bind Json.asString

/-- Outcome of the one outbound call (`requests.post` + `.json()`): a raised
exception (connection/transport failure, unparseable body subsumed), or a
response with an HTTP status and parsed JSON body. -/
inductive TransportOutcome where
  | exn (detail : String)
  | resp (status : Nat) (body : Json)

/-- Which branch of `agent_root_cause_analysis` produced the outcome (ghost
observation; the code itself only returns the report string). -/
inductive GenStepCause where
  | authMissing
  | transportExn
  | httpError (status : Nat)
  | missingField
  | ok
  deriving DecidableEq

/-- The return value of `agent_root_cause_analysis` together with ghost
observations of the run (see the module comment). -/
structure RunOutcome where
  report : String
  predictedType : Option String
  transportCalls : Nat
  cause : GenStepCause
  deriving DecidableEq

/-- The early return of `app.py` line 65 when the key is missing. -/
def authFailureMessage : String :=
  "Unable to perform analysis. API key is missing."

/-- The catch-all return of `app.py` line 131 for any exception in the try
block. -/
def fallbackMessage : String :=
  "Unable to perform analysis. Please check your API key and network connection."

/-- Segment of the prompt f-string (`app.py` lines 89-94) before
`{incident}`. -/
def promptHead : String :=
  "\n        Act as a senior network engineer and root cause analyst. Your task is to analyze a network incident and provide a clear, human-readable explanation of the root cause, including the 'why' behind the problem.\n\n        Based on the following incident description and retrieved network knowledge, generate a concise report.\n\n        **Incident Description:**\n        "

/-- Segment between `{incident}` and `{context['title']}` (lines 95-98). -/
def promptMid1 : String :=
  "\n\n        **Retrieved Knowledge:**\n        Title: "

/-- Segment between `{context['title']}` and `{context['content']}`. -/
def promptMid2 : String :=
  "\n        Content: "

/-- Segment between `{context['content']}` and
`{context['actionable_intelligence']}`. -/
def promptMid3 : String :=
  "\n        Actionable Intelligence: "

/-- Segment of the prompt f-string after the last substitution (lines
100-106), holding the three required section headings. -/
def promptTail : String :=
  "\n\n        Your response must include the following sections:\n        1.  **Identified Problem:** A single sentence summarizing the core issue.\n        2.  **Root Cause Analysis:** A brief paragraph explaining the 'why' behind the problem. Use the provided knowledge and connect it to the incident description.\n        3.  **Actionable Intelligence:** Extract and rephrase the \"actionable intelligence\" to provide a clear, next-step recommendation.\n        "

/-- The prompt f-string of `app.py` lines 89-106 as concatenation of its
literal segments and the three substituted values. -/
def buildPrompt (incident : String) (context : KnowledgeRecord) : String :=
  promptHead ++ incident ++ promptMid1 ++ context.title ++ promptMid2 ++
    context.content ++ promptMid3 ++ context.actionable_intelligence ++ promptTail

/-- `agent_root_cause_analysis` of `app.py` lines 58-131, with the network
call abstracted into `transport` and the module-level `GOOGLE_API_KEY`
passed as an argument. The Python truthiness test `if not GOOGLE_API_KEY`
is `= ""` on strings. -/
def agent_root_cause_analysis (GOOGLE_API_KEY : String)
    (transport : String → TransportOutcome) (incident : String) : RunOutcome :=
  if GOOGLE_API_KEY = "" then
    { report := authFailureMessage, predictedType := none,
      transportCalls := 0, cause := .authMissing }
  else
    let incident_type := predict_incident_type incident
    let context := knowledgeBaseGet incident_type
    let prompt := buildPrompt incident context
    match transport prompt with
    | .exn _ =>
      { report := fallbackMessage, predictedType := some incident_type,
        transportCalls := 1, cause := .transportExn }
    | .resp status body =>
      if 400 ≤ status then
        { report := fallbackMessage, predictedType := some incident_type,
          transportCalls := 1, cause := .httpError status }
      else
        match extractGeneratedText body with
        | some generated_text =>
          { report := generated_text, predictedType := some incident_type,
            transportCalls := 1, cause := .ok }
        | none =>
          { report := fallbackMessage, predictedType := some incident_type,
            transportCalls := 1, cause := .missingField }

/-- The error taxonomy of spec section 4.4. -/
inductive ErrorKind where
  | AuthError
  | TransportError
  | BackendError
  | MalformedResponse
  deriving DecidableEq

/-- Modelled from the spec (sections 4.4 and 7): the taxonomy's name for
each concrete failure condition of `agent_root_cause_analysis`; `none` for
a successful generation. -/
def errorKindOf : GenStepCause → Option ErrorKind
  | .authMissing => some .AuthError
  | .transportExn => some .TransportError
  | .httpError _ => some .BackendError
  | .missingField => some .MalformedResponse
  | .ok => none

/-- The claims' notion of containing a keyword in any letter case: some
contiguous substring of the text lowercases to the keyword. -/
def containsAnyCase (needle hay : String) : Prop :=
  ∃ sub : List Char, sub <:+: hay.toList ∧ sub.map Char.toLower = needle.toList

/-- The first required section heading of the prompt (`app.py` line 103). -/
def headingIdentifiedProblem : String := "1.  **Identified Problem:**"

/-- The second required section heading of the prompt (`app.py` line 104). -/
def headingRootCauseAnalysis : String := "2.  **Root Cause Analysis:**"

/-- The third required section heading of the prompt (`app.py` line 105). -/
def headingActionableIntelligence : String := "3.  **Actionable Intelligence:**"

/-- A well-formed Gemini response body whose generated text is
"Root cause: X". -/
def happyBody : Json :=
  Json.obj [("candidates", Json.arr [Json.obj [("content", Json.obj [("parts",
    Json.arr [Json.obj [("text", Json.str "Root cause: X")]])])]])]

set_option maxRecDepth 40000

theorem toList_append (s t : String) : (s ++ t).toList = s.toList ++ t.toList := rfl

theorem pyLower_toList (s : String) : (pyLower s).toList = s.toList.map Char.toLower := rfl

theorem containsAnyCase_iff (needle hay : String) :
    containsAnyCase needle hay ↔ needle.toList <:+: (pyLower hay).toList := by
  rw [pyLower_toList]
  constructor
  · rintro ⟨sub, hsub, hmap⟩
    exact hmap ▸ hsub.map Char.toLower
  · rintro ⟨s, t, h⟩
    rw [List.append_assoc] at h
    obtain ⟨l1, l2, hl, _, hmap2⟩ := List.map_eq_append_iff.mp h.symm
    obtain ⟨m1, m2, hm, hmap21, _⟩ := List.map_eq_append_iff.mp hmap2
    exact ⟨m1, ⟨l1, m2, by rw [hl, hm, List.append_assoc]⟩, hmap21⟩

theorem strIncludes_true {needle hay : String} (h : needle.toList <:+: hay.toList) :
    strIncludes needle hay = true :=
  decide_eq_true h

theorem strIncludes_false {needle hay : String} (h : ¬ needle.toList <:+: hay.toList) :
    strIncludes needle hay = false :=
  decide_eq_false h

/-- Any cause other than a successful generation makes the run report the
fixed fallback string of `app.py` line 131 (the bare `except` branch). -/
theorem report_of_failure (GOOGLE_API_KEY : String)
    (transport : String → TransportOutcome) (incident : String)
    (hkey : GOOGLE_API_KEY ≠ "")
    (hfail : (agent_root_cause_analysis GOOGLE_API_KEY transport incident).cause ≠
      GenStepCause.ok) :
    (agent_root_cause_analysis GOOGLE_API_KEY transport incident).report =
      fallbackMessage := by
  unfold agent_root_cause_analysis at hfail ⊢
  rw [if_neg hkey] at hfail ⊢
  rcases htr : transport (buildPrompt incident (knowledgeBaseGet (predict_incident_type incident))) with d | ⟨status, body⟩ <;>
    simp only [htr] at hfail ⊢
  by_cases hs : 400 ≤ status
  · simp only [if_pos hs]
  · simp only [if_neg hs] at hfail ⊢
    rcases hx : extractGeneratedText body with _ | t <;> simp only [hx] at hfail ⊢
    exact absurd rfl hfail

/-- The fixed tail of the prompt template is a suffix (hence a substring) of
every built prompt. -/
theorem promptTail_suffix (incident : String) (context : KnowledgeRecord) :
    promptTail.toList <:+: (buildPrompt incident context).toList :=
  ⟨(promptHead ++ incident ++ promptMid1 ++ context.title ++ promptMid2 ++
      context.content ++ promptMid3 ++ context.actionable_intelligence).toList, [],
    by simp only [buildPrompt, toList_append, List.append_assoc, List.append_nil]⟩

/-- C1: with no API credential configured (the key is the empty string, the
only falsy value of the Python check `if not GOOGLE_API_KEY`), the run on
any incident text and against any transport returns the auth failure
outcome — the distinct auth message, no classification shown, and zero
transport invocations, i.e. no outbound network call — and that failure
condition is the one the spec taxonomy names `AuthError`. -/
theorem missing_key_fails_fast (GOOGLE_API_KEY : String)
    (transport : String → TransportOutcome) (incident : String)
    (h : GOOGLE_API_KEY = "") :
    agent_root_cause_analysis GOOGLE_API_KEY transport incident =
      { report := authFailureMessage, predictedType := none,
        transportCalls := 0, cause := GenStepCause.authMissing } ∧
    errorKindOf GenStepCause.authMissing = some ErrorKind.AuthError := by
  subst h
  exact ⟨rfl, rfl⟩

theorem missing_key_fails_fast_witness :
    agent_root_cause_analysis "" (fun _ => TransportOutcome.exn "connection refused")
        "The core router is overheating" =
      { report := authFailureMessage, predictedType := none,
        transportCalls := 0, cause := GenStepCause.authMissing } ∧
    errorKindOf GenStepCause.authMissing = some ErrorKind.AuthError :=
  missing_key_fails_fast "" (fun _ => TransportOutcome.exn "connection refused")
    "The core router is overheating" rfl

/-- C2: with a credential configured and a stubbed backend answering status
200 with a well-formed body whose text is "Root cause: X", the run on
"users report slow page loads" completes: the classification stage shows
the "high latency" tag (the code's `HighLatency`), one call is made, and
the final result is the successful generation carrying exactly the text
"Root cause: X", unmodified. -/
theorem happy_path_high_latency_success (GOOGLE_API_KEY : String)
    (h : GOOGLE_API_KEY ≠ "") :
    agent_root_cause_analysis GOOGLE_API_KEY
        (fun _ => TransportOutcome.resp 200 happyBody)
        "users report slow page loads" =
      { report := "Root cause: X", predictedType := some "high latency",
        transportCalls := 1, cause := GenStepCause.ok } := by
  unfold agent_root_cause_analysis
  rw [if_neg h]
  rfl

theorem happy_path_high_latency_success_witness :
    agent_root_cause_analysis "key"
        (fun _ => TransportOutcome.resp 200 happyBody)
        "users report slow page loads" =
      { report := "Root cause: X", predictedType := some "high latency",
        transportCalls := 1, cause := GenStepCause.ok } :=
  happy_path_high_latency_success "key" (by decide)

/-- C3: with a credential configured, a success status and a response body
from which `result['candidates'][0]['content']['parts'][0]['text']` cannot
be extracted, the run returns normally (the embedded function is total, so
no fault escapes: the bare `except` catches the KeyError) with the failure
outcome produced by the missing-field condition — the condition the spec
taxonomy names `MalformedResponse`. -/
theorem malformed_body_yields_failure (GOOGLE_API_KEY : String) (body : Json)
    (status : Nat) (incident : String)
    (hkey : GOOGLE_API_KEY ≠ "") (hstatus : ¬ 400 ≤ status)
    (hbody : extractGeneratedText body = none) :
    agent_root_cause_analysis GOOGLE_API_KEY
        (fun _ => TransportOutcome.resp status body) incident =
      { report := fallbackMessage,
        predictedType := some (predict_incident_type incident),
        transportCalls := 1, cause := GenStepCause.missingField } ∧
    errorKindOf GenStepCause.missingField = some ErrorKind.MalformedResponse := by
  refine ⟨?_, rfl⟩
  simp only [agent_root_cause_analysis, if_neg hkey, if_neg hstatus, hbody]

theorem malformed_body_yields_failure_witness :
    agent_root_cause_analysis "key"
        (fun _ => TransportOutcome.resp 200 (Json.obj [])) "users report slow page loads" =
      { report := fallbackMessage,
        predictedType := some (predict_incident_type "users report slow page loads"),
        transportCalls := 1, cause := GenStepCause.missingField } ∧
    errorKindOf GenStepCause.missingField = some ErrorKind.MalformedResponse :=
  malformed_body_yields_failure "key" (Json.obj []) 200 "users report slow page loads"
    (by decide) (by decide) rfl

/-- C4 counterexample: two different failure conditions — a transport
exception (spec kind `TransportError`) and a success status with a missing
text field (spec kind `MalformedResponse`) — yield literally identical
final results, so no reading of the final result can assign them distinct
error kinds; the claim that distinct conditions never yield the same kind
in the final result is false. -/
theorem failure_kinds_merged_cex :
    ((agent_root_cause_analysis "key" (fun _ => TransportOutcome.exn "connection refused") "x").report =
      (agent_root_cause_analysis "key" (fun _ => TransportOutcome.resp 200 (Json.obj [])) "x").report) ∧
    ((agent_root_cause_analysis "key" (fun _ => TransportOutcome.exn "connection refused") "x").cause ≠
      (agent_root_cause_analysis "key" (fun _ => TransportOutcome.resp 200 (Json.obj [])) "x").cause) ∧
    (errorKindOf (agent_root_cause_analysis "key" (fun _ => TransportOutcome.exn "connection refused") "x").cause ≠
      errorKindOf (agent_root_cause_analysis "key" (fun _ => TransportOutcome.resp 200 (Json.obj [])) "x").cause) :=
  ⟨rfl, by decide, by decide⟩

/-- C4 amended: only the missing-credential condition is mapped to a
distinct failure result (the auth message, returned before any call, and
different from the generic fallback); transport failure, non-success
status and missing text field are distinct conditions in the code but all
yield one identical generic failure result. -/
theorem auth_distinct_other_failures_merged (GOOGLE_API_KEY : String)
    (transport : String → TransportOutcome) (incident : String)
    (hkey : GOOGLE_API_KEY ≠ "") :
    (agent_root_cause_analysis "" transport incident).report = authFailureMessage ∧
    authFailureMessage ≠ fallbackMessage ∧
    ((agent_root_cause_analysis GOOGLE_API_KEY transport incident).cause ≠ GenStepCause.ok →
      (agent_root_cause_analysis GOOGLE_API_KEY transport incident).report = fallbackMessage) :=
  ⟨rfl, by decide, fun hf => report_of_failure GOOGLE_API_KEY transport incident hkey hf⟩

theorem auth_distinct_other_failures_merged_witness :
    (agent_root_cause_analysis "" (fun _ => TransportOutcome.exn "connection refused") "x").report = authFailureMessage ∧
    authFailureMessage ≠ fallbackMessage ∧
    ((agent_root_cause_analysis "key" (fun _ => TransportOutcome.exn "connection refused") "x").cause ≠ GenStepCause.ok →
      (agent_root_cause_analysis "key" (fun _ => TransportOutcome.exn "connection refused") "x").report = fallbackMessage) :=
  auth_distinct_other_failures_merged "key" (fun _ => TransportOutcome.exn "connection refused") "x" (by decide)

/-- C5: every incident text containing the substring "latency" or the
substring "slow" in any letter case (some contiguous substring of the text
lowercases to the keyword) is classified "high latency" (the code's
`HighLatency` tag). -/
theorem classifier_latency_or_slow (s : String)
    (h : containsAnyCase "latency" s ∨ containsAnyCase "slow" s) :
    predict_incident_type s = "high latency" := by
  have hb : (strIncludes "latency" (pyLower s) || strIncludes "slow" (pyLower s)) = true := by
    rcases h with h | h
    · rw [strIncludes_true ((containsAnyCase_iff _ _).mp h), Bool.true_or]
    · rw [strIncludes_true ((containsAnyCase_iff _ _).mp h), Bool.or_true]
  simp only [predict_incident_type, hb]
  rfl

theorem classifier_latency_or_slow_witness :
    predict_incident_type "Users report SLOW page loads" = "high latency" :=
  classifier_latency_or_slow "Users report SLOW page loads"
    (Or.inr ⟨"SLOW".toList, by decide, by decide⟩)

/-- C6: every incident text containing none of the six configured keywords
("latency", "slow", "packet", "drop", "unreachable", "down") in any letter
case is classified "unknown". -/
theorem classifier_no_keyword_unknown (s : String)
    (h1 : ¬ containsAnyCase "latency" s) (h2 : ¬ containsAnyCase "slow" s)
    (h3 : ¬ containsAnyCase "packet" s) (h4 : ¬ containsAnyCase "drop" s)
    (h5 : ¬ containsAnyCase "unreachable" s) (h6 : ¬ containsAnyCase "down" s) :
    predict_incident_type s = "unknown" := by
  have e1 := strIncludes_false (fun hc => h1 ((containsAnyCase_iff "latency" s).mpr hc))
  have e2 := strIncludes_false (fun hc => h2 ((containsAnyCase_iff "slow" s).mpr hc))
  have e3 := strIncludes_false (fun hc => h3 ((containsAnyCase_iff "packet" s).mpr hc))
  have e4 := strIncludes_false (fun hc => h4 ((containsAnyCase_iff "drop" s).mpr hc))
  have e5 := strIncludes_false (fun hc => h5 ((containsAnyCase_iff "unreachable" s).mpr hc))
  have e6 := strIncludes_false (fun hc => h6 ((containsAnyCase_iff "down" s).mpr hc))
  simp only [predict_incident_type, e1, e2, e3, e4, e5, e6]
  rfl

theorem classifier_no_keyword_unknown_witness :
    predict_incident_type "The firewall rejected all new connections" = "unknown" :=
  classifier_no_keyword_unknown "The firewall rejected all new connections"
    (fun hc => absurd ((containsAnyCase_iff "latency" _).mp hc) (by decide))
    (fun hc => absurd ((containsAnyCase_iff "slow" _).mp hc) (by decide))
    (fun hc => absurd ((containsAnyCase_iff "packet" _).mp hc) (by decide))
    (fun hc => absurd ((containsAnyCase_iff "drop" _).mp hc) (by decide))
    (fun hc => absurd ((containsAnyCase_iff "unreachable" _).mp hc) (by decide))
    (fun hc => absurd ((containsAnyCase_iff "down" _).mp hc) (by decide))

/-- C7: the knowledge lookup is total — for every tag, including ones with
no entry such as "unknown", it returns a defined record (the function is
`String → KnowledgeRecord`, never null), and when the tag has no entry in
`KNOWLEDGE_BASE` the result degrades to the default record rather than
failing. -/
theorem knowledge_lookup_total (tag : String) :
    (∃ r : KnowledgeRecord, knowledgeBaseGet tag = r) ∧
    (KNOWLEDGE_BASE.find? (fun p => p.1 == tag) = none →
      knowledgeBaseGet tag = defaultKnowledge) :=
  ⟨⟨knowledgeBaseGet tag, rfl⟩, fun h => by unfold knowledgeBaseGet; rw [h]⟩

theorem knowledge_lookup_total_witness :
    knowledgeBaseGet "unknown" = defaultKnowledge :=
  (knowledge_lookup_total "unknown").2 (by decide)

/-- C8: for every incident text and knowledge record, the built prompt
contains the incident text verbatim — unmodified and untruncated — as a
contiguous substring. -/
theorem prompt_contains_incident (incident : String) (context : KnowledgeRecord) :
    incident.toList <:+: (buildPrompt incident context).toList :=
  ⟨promptHead.toList,
    (promptMid1 ++ context.title ++ promptMid2 ++ context.content ++ promptMid3 ++
      context.actionable_intelligence ++ promptTail).toList,
    by simp only [buildPrompt, toList_append, List.append_assoc]⟩

/-- C9: every built prompt contains the three fixed section headings of the
template — the identified-problem heading, the root-cause-analysis heading
and the actionable-recommendation heading — as literal substrings. -/
theorem prompt_has_three_section_headings (incident : String) (context : KnowledgeRecord) :
    headingIdentifiedProblem.toList <:+: (buildPrompt incident context).toList ∧
    headingRootCauseAnalysis.toList <:+: (buildPrompt incident context).toList ∧
    headingActionableIntelligence.toList <:+: (buildPrompt incident context).toList :=
  ⟨List.IsInfix.trans (by decide) (promptTail_suffix incident context),
    List.IsInfix.trans (by decide) (promptTail_suffix incident context),
    List.IsInfix.trans (by decide) (promptTail_suffix incident context)⟩

/-- C10: with a credential configured, whenever the generation step fails
for any reason — transport exception, non-success status, or missing text
field — the run reports the one fixed fallback string of `app.py` line
131; the failure payload does not vary with the kind of failure. -/
theorem generation_failure_uniform_fallback (GOOGLE_API_KEY : String)
    (transport : String → TransportOutcome) (incident : String)
    (hkey : GOOGLE_API_KEY ≠ "")
    (hfail : (agent_root_cause_analysis GOOGLE_API_KEY transport incident).cause ≠
      GenStepCause.ok) :
    (agent_root_cause_analysis GOOGLE_API_KEY transport incident).report =
      fallbackMessage :=
  report_of_failure GOOGLE_API_KEY transport incident hkey hfail

theorem generation_failure_uniform_fallback_witness :
    (agent_root_cause_analysis "key" (fun _ => TransportOutcome.exn "connection refused") "x").report =
      fallbackMessage :=
  generation_failure_uniform_fallback "key"
    (fun _ => TransportOutcome.exn "connection refused") "x" (by decide) (by decide)
